import Mathlib

/-!
Verification of the CenterNet ground-truth builder
(`official/vision/beta/projects/centernet/ops/gt_builder.py`,
function `build_heatmap_and_regressed_features`).

The builder converts one padded annotation record (boxes, classes, count)
into dense training targets: a per-class heatmap, per-instance offset and
size regression rows, a validity mask and integer heatmap indices.

Embedding conventions:
* Float tensors are idealized as exact rationals (`ℚ`) for the sliced
  geometry (centers, floors, offsets, sizes) and as reals (`ℝ`) where the
  source mathematics needs `sqrt`/`exp` (radius, Gaussian values).
* Fixed-capacity output tensors are modelled as total functions from the
  row index; `tf.tensor_scatter_nd_update` is modelled by a left fold of
  pointwise updates over the explicit update list (`scatter` below), so
  "last write wins" semantics are preserved.
* `preprocess_ops.gaussian_radius` and `preprocess_ops.draw_gaussian`
  are not part of the sources at hand; they are modelled from the spec
  (see the doc comments on `quadRoot`/`gaussian_radius`/`drawGaussian`).
-/

namespace GtBuilder

/-- A bounding box in input-image coordinates, layout `[ymin, xmin, ymax, xmax]`
as read by `boxes[..., 0] / [..., 1] / [..., 2] / [..., 3]` in the source. -/
structure Box where
  ytl : ℚ
  xtl : ℚ
  ybr : ℚ
  xbr : ℚ
deriving DecidableEq, Inhabited

/-- The annotation record (`labels` dictionary): `bbox`, `classes`,
`num_detections`. -/
structure Labels where
  bbox : List Box
  classes : List ℤ
  num_detections : ℕ
deriving DecidableEq, Inhabited

/-- The keyword parameters of `build_heatmap_and_regressed_features`.
`output_size`/`input_size` are `(height, width)` pairs. -/
structure GTParams where
  output_size : ℚ × ℚ
  input_size : ℚ × ℚ
  num_classes : ℕ
  max_num_instances : ℕ
  use_gaussian_bump : Bool
  gaussian_rad : ℤ
  gaussian_iou : ℝ
  class_offset : ℤ
  dtype : String

/-- The returned label bundle, with fixed-capacity tensors modelled as
index functions. `ct_heatmaps` is indexed `(row, col, class)`. -/
structure GTBundle where
  ct_heatmaps : ℕ → ℕ → ℕ → ℝ
  ct_offset : ℕ → ℚ × ℚ
  size : ℕ → ℚ × ℚ
  box_mask : ℕ → ℤ
  box_indices : ℕ → ℤ × ℤ

/-- Model of `tf.tensor_scatter_nd_update`: apply the update list to the
base tensor in order, so later updates to the same index overwrite
earlier ones. -/
def scatter {α β : Type} [DecidableEq α] (base : α → β)
    (ups : List (α × β)) : α → β :=
  ups.foldl (fun f u => Function.update f u.1 u.2) base

/-- `width_ratio = output_w / input_w`. -/
def widthRatio (p : GTParams) : ℚ := p.output_size.2 / p.input_size.2

/-- `height_ratio = output_h / input_h`. -/
def heightRatio (p : GTParams) : ℚ := p.output_size.1 / p.input_size.1

/-- `xct = (xtl + xbr) / 2` (center in input coordinates). -/
def xct (b : Box) : ℚ := (b.xtl + b.xbr) / 2

/-- `yct = (ytl + ybr) / 2` (center in input coordinates). -/
def yct (b : Box) : ℚ := (b.ytl + b.ybr) / 2

/-- `scale_xct = xct * width_ratio`. -/
def scaleXct (p : GTParams) (b : Box) : ℚ := xct b * widthRatio p

/-- `scale_yct = yct * height_ratio`. -/
def scaleYct (p : GTParams) (b : Box) : ℚ := yct b * heightRatio p

/-- `scale_xct_floor = tf.math.floor(scale_xct)`. -/
def scaleXctFloor (p : GTParams) (b : Box) : ℤ := ⌊scaleXct p b⌋

/-- `scale_yct_floor = tf.math.floor(scale_yct)`. -/
def scaleYctFloor (p : GTParams) (b : Box) : ℤ := ⌊scaleYct p b⌋

/-- `ct_offset_values = stack([scale_yct - scale_yct_floor,
scale_xct - scale_xct_floor])`: the discretization residual, y first. -/
def ctOffsetValues (p : GTParams) (b : Box) : ℚ × ℚ :=
  (scaleYct p b - scaleYctFloor p b, scaleXct p b - scaleXctFloor p b)

/-- `box_heights_widths = stack([box_heights, box_widths])` with
`box_heights = (ybr - ytl) * height_ratio`,
`box_widths = (xbr - xtl) * width_ratio`. -/
def boxHeightsWidths (p : GTParams) (b : Box) : ℚ × ℚ :=
  ((b.ybr - b.ytl) * heightRatio p, (b.xbr - b.xtl) * widthRatio p)

/-- `boxes = tf.cast(labels['bbox'], dtype)[:num_objects]`. -/
def boxesT (l : Labels) : List Box := l.bbox.take l.num_detections

/-- `classes = tf.cast(labels['classes'] - class_offset, dtype)[:num_objects]`. -/
def classesT (p : GTParams) (l : Labels) : List ℤ :=
  ((l.classes.map (fun c => c - p.class_offset))).take l.num_detections

/-- The valid instances, each a (box, class) pair, in input order. -/
def instList (p : GTParams) (l : Labels) : List (Box × ℤ) :=
  (boxesT l).zip (classesT p l)

/-- Modelled from the spec: the positive-root solver shared by the three
radius cases of `preprocess_ops.gaussian_radius`, which is not among the
sources at hand.  Spec §4.2: "for each case solve `a·r² + b·r + c = 0`
with case-specific coefficients derived from `h`, `w`, and `τ`, take the
positive root `(-b+√(b²-4ac))/(2a)`". -/
noncomputable def quadRoot (a b c : ℝ) : ℝ :=
  (-b + Real.sqrt (b ^ 2 - 4 * a * c)) / (2 * a)

/-- Modelled from the spec: case 1 of the radius derivation (both boxes
shift diagonally by `r`; overlap `(w-r)(h-r) / (2wh - (w-r)(h-r)) = τ`
gives `r² - (h+w)·r + wh(1-τ)/(1+τ) = 0`). -/
noncomputable def radCase1 (height width τ : ℝ) : ℝ :=
  quadRoot 1 (-(height + width)) (width * height * (1 - τ) / (1 + τ))

/-- Modelled from the spec: case 2 (detection shrunk by `2r` per axis and
contained in the ground truth; overlap `(w-2r)(h-2r)/(wh) = τ` gives
`4r² - 2(h+w)·r + (1-τ)wh = 0`). -/
noncomputable def radCase2 (height width τ : ℝ) : ℝ :=
  quadRoot 4 (-2 * (height + width)) ((1 - τ) * width * height)

/-- Modelled from the spec: case 3 (detection grown by `2r` per axis and
containing the ground truth; overlap `wh/((w+2r)(h+2r)) = τ` gives
`4τ·r² + 2τ(h+w)·r + (τ-1)wh = 0`). -/
noncomputable def radCase3 (height width τ : ℝ) : ℝ :=
  quadRoot (4 * τ) (2 * τ * (height + width)) ((τ - 1) * width * height)

/-- Modelled from the spec: `preprocess_ops.gaussian_radius(det_size, iou)`
is not among the sources at hand.  Spec §4.2: "return the minimum of the
three positive roots". The caller floors and clamps the result. -/
noncomputable def gaussian_radius (height width τ : ℝ) : ℝ :=
  min (radCase1 height width τ) (min (radCase2 height width τ) (radCase3 height width τ))

/-- The per-instance radius selection of the builder (source lines
166-174): with the sentinel `-1` the radius is
`max(floor(gaussian_radius(ceil(h), ceil(w), iou)), 1)`, otherwise the
supplied constant is used for every instance.  The tensor holds
integer-valued floats; we keep the integer. -/
noncomputable def instanceRadius (p : GTParams) (b : Box) : ℤ :=
  if p.gaussian_rad = -1 then
    max ⌊gaussian_radius ((⌈(boxHeightsWidths p b).1⌉ : ℤ) : ℝ)
          ((⌈(boxHeightsWidths p b).2⌉ : ℤ) : ℝ) p.gaussian_iou⌋ 1
  else p.gaussian_rad

/-- Modelled from the spec: `preprocess_ops.draw_gaussian` is not among
the sources at hand.  Spec §4.3: channel `class_id` contains, within a
`(2r+1)×(2r+1)` window centered at `(row, col)` and clipped to grid
bounds, values `exp(-((i-row)² + (j-col)²) / (2σ²))` with `σ = r/3`;
0 elsewhere and on all other channels. -/
noncomputable def drawGaussian (cls row col : ℤ) (r : ℤ) (i j c : ℕ) : ℝ :=
  if (c : ℤ) = cls ∧ |(i : ℤ) - row| ≤ r ∧ |(j : ℤ) - col| ≤ r then
    Real.exp (-(((i : ℝ) - (row : ℝ)) ^ 2 + ((j : ℝ) - (col : ℝ)) ^ 2) /
      (2 * ((r : ℝ) / 3) ^ 2))
  else 0

/-- Model of `tf.reduce_max` along the instance axis: maximum of a
nonempty list of per-instance contributions. -/
def reduceMax : List ℝ → ℝ
  | [] => 0
  | x :: xs => xs.foldr max x

/-- The per-instance Gaussian contributions at one heatmap cell
(`ct_gaussians` evaluated at `(i, j, c)`), one entry per valid instance. -/
noncomputable def gaussianList (p : GTParams) (l : Labels) (i j c : ℕ) : List ℝ :=
  (instList p l).map fun bc =>
    drawGaussian bc.2 (scaleYctFloor p bc.1) (scaleXctFloor p bc.1)
      (instanceRadius p bc.1) i j c

/-- `ct_heatmap = tf.math.reduce_max(ct_gaussians, axis=0)` (Gaussian path). -/
noncomputable def ctHeatmapGauss (p : GTParams) (l : Labels) : ℕ → ℕ → ℕ → ℝ :=
  fun i j c => reduceMax (gaussianList p l i j c)

/-- `ct_hm_update_indices = stack([scale_yct_floor, scale_xct_floor, classes])`
for one instance (disabled-splat path). -/
def ctScatterIndex (p : GTParams) (bc : Box × ℤ) : ℤ × ℤ × ℤ :=
  (scaleYctFloor p bc.1, scaleXctFloor p bc.1, bc.2)

/-- The update list of the disabled-splat path: value `1` at each
instance's `(row, col, class)` cell. -/
def scatterHmUpdates (p : GTParams) (l : Labels) : List ((ℤ × ℤ × ℤ) × ℝ) :=
  (instList p l).map fun bc => (ctScatterIndex p bc, 1)

/-- `ct_heatmap = tf.tensor_scatter_nd_update(zeros, indices, [1] * n)`
(disabled-splat path). -/
def ctHeatmapScatter (p : GTParams) (l : Labels) : ℕ → ℕ → ℕ → ℝ :=
  fun i j c => scatter (fun _ => 0) (scatterHmUpdates p l) ((i : ℤ), (j : ℤ), (c : ℤ))

/-- Row updates for `ct_offset`: row `i` receives the offset values of the
`i`-th sliced box (the `cartesian_product(range n, range 2)` scatter
writes the two scalars of each row; we write the row as a pair). -/
def offsetUpdates (p : GTParams) (l : Labels) : List (ℕ × (ℚ × ℚ)) :=
  (List.range (boxesT l).length).map fun i =>
    (i, ctOffsetValues p ((boxesT l).getD i default))

/-- Row updates for `size`: row `i` receives `box_heights_widths` of the
`i`-th sliced box. -/
def sizeUpdates (p : GTParams) (l : Labels) : List (ℕ × (ℚ × ℚ)) :=
  (List.range (boxesT l).length).map fun i =>
    (i, boxHeightsWidths p ((boxesT l).getD i default))

/-- Mask updates: `tf.tensor_scatter_nd_update(box_mask,
expand_dims(range(n)), repeat(1, n))`. -/
def maskUpdates (l : Labels) : List (ℕ × ℤ) :=
  (List.range l.num_detections).map fun i => (i, 1)

/-- Row updates for `box_indices`: row `i` receives
`(scale_yct_floor, scale_xct_floor)` of the `i`-th sliced box, cast to
integers. -/
def indexUpdates (p : GTParams) (l : Labels) : List (ℕ × (ℤ × ℤ)) :=
  (List.range (boxesT l).length).map fun i =>
    (i, (scaleYctFloor p ((boxesT l).getD i default),
         scaleXctFloor p ((boxesT l).getD i default)))

/-- The body of `build_heatmap_and_regressed_features` after the dtype
dispatch: all five outputs start zeroed and are populated only when
`num_objects > 0`. -/
noncomputable def buildCore (p : GTParams) (l : Labels) : GTBundle :=
  if 0 < l.num_detections then
    { ct_heatmaps :=
        if p.use_gaussian_bump then ctHeatmapGauss p l else ctHeatmapScatter p l
      ct_offset := scatter (fun _ => ((0 : ℚ), (0 : ℚ))) (offsetUpdates p l)
      size := scatter (fun _ => ((0 : ℚ), (0 : ℚ))) (sizeUpdates p l)
      box_mask := scatter (fun _ => (0 : ℤ)) (maskUpdates l)
      box_indices := scatter (fun _ => ((0 : ℤ), (0 : ℤ))) (indexUpdates p l) }
  else
    { ct_heatmaps := fun _ _ _ => 0
      ct_offset := fun _ => (0, 0)
      size := fun _ => (0, 0)
      box_mask := fun _ => 0
      box_indices := fun _ => (0, 0) }

/-- Evaluating a scatter after one more update. -/
theorem scatter_concat {α β : Type} [DecidableEq α] (base : α → β)
    (ups : List (α × β)) (u : α × β) :
    scatter base (ups ++ [u]) = Function.update (scatter base ups) u.1 u.2 := by
  unfold scatter
  rw [List.foldl_append]
  rfl

/-- A scatter whose update list writes `v i` at each `i < n` acts as the
pointwise override of the base below `n`. -/
theorem scatter_range_map {β : Type} (base : ℕ → β) (v : ℕ → β) (n j : ℕ) :
    scatter base ((List.range n).map fun i => (i, v i)) j =
      if j < n then v j else base j := by
  induction n with
  | zero => simp [scatter]
  | succ n ih =>
    rw [List.range_succ, List.map_append, List.map_singleton, scatter_concat,
      Function.update_apply]
    rcases eq_or_ne j n with h | h
    · subst h; simp
    · rw [if_neg h, ih]
      by_cases hj : j < n
      · rw [if_pos hj, if_pos (by omega)]
      · rw [if_neg hj, if_neg (by omega)]

/-- A scatter writing one constant value everywhere is membership in the
scattered index set, however many times an index is repeated. -/
theorem scatter_const {α β : Type} [DecidableEq α] (base : α → β) (c : β)
    (ups : List (α × β)) (hc : ∀ u ∈ ups, u.2 = c) (a : α) :
    scatter base ups a = if a ∈ ups.map Prod.fst then c else base a := by
  induction ups generalizing base with
  | nil => simp [scatter]
  | cons u rest ih =>
    have hstep : scatter base (u :: rest) =
        scatter (Function.update base u.1 u.2) rest := rfl
    rw [hstep, ih _ (fun x hx => hc x (List.mem_cons_of_mem _ hx))]
    by_cases hm : a ∈ rest.map Prod.fst
    · rw [if_pos hm, if_pos (by simp [hm])]
    · rw [if_neg hm, Function.update_apply]
      rcases eq_or_ne a u.1 with h | h
      · rw [if_pos h, if_pos (by simp [h]), hc u (by simp)]
      · rw [if_neg h, if_neg (by simp [hm, h])]

/-- Pointwise value of the returned `box_mask`. -/
theorem buildCore_box_mask (p : GTParams) (l : Labels) (i : ℕ) :
    (buildCore p l).box_mask i = if i < l.num_detections then 1 else 0 := by
  by_cases h0 : 0 < l.num_detections
  · simp only [buildCore, if_pos h0, maskUpdates, scatter_range_map]
  · simp only [buildCore, if_neg h0]
    rw [if_neg (by omega)]

/-- Pointwise value of the returned `ct_offset`. -/
theorem buildCore_ct_offset (p : GTParams) (l : Labels) (i : ℕ) :
    (buildCore p l).ct_offset i =
      if i < (boxesT l).length then ctOffsetValues p ((boxesT l).getD i default)
      else (0, 0) := by
  by_cases h0 : 0 < l.num_detections
  · simp only [buildCore, if_pos h0, offsetUpdates, scatter_range_map]
  · have hlen : (boxesT l).length = 0 := by
      simp [boxesT, Nat.le_zero.mp (Nat.not_lt.mp h0)]
    simp only [buildCore, if_neg h0]
    rw [if_neg (by omega)]

/-- Pointwise value of the returned `size`. -/
theorem buildCore_size (p : GTParams) (l : Labels) (i : ℕ) :
    (buildCore p l).size i =
      if i < (boxesT l).length then boxHeightsWidths p ((boxesT l).getD i default)
      else (0, 0) := by
  by_cases h0 : 0 < l.num_detections
  · simp only [buildCore, if_pos h0, sizeUpdates, scatter_range_map]
  · have hlen : (boxesT l).length = 0 := by
      simp [boxesT, Nat.le_zero.mp (Nat.not_lt.mp h0)]
    simp only [buildCore, if_neg h0]
    rw [if_neg (by omega)]

/-- Pointwise value of the returned `box_indices`. -/
theorem buildCore_box_indices (p : GTParams) (l : Labels) (i : ℕ) :
    (buildCore p l).box_indices i =
      if i < (boxesT l).length then
        (scaleYctFloor p ((boxesT l).getD i default),
         scaleXctFloor p ((boxesT l).getD i default))
      else (0, 0) := by
  by_cases h0 : 0 < l.num_detections
  · simp only [buildCore, if_pos h0, indexUpdates, scatter_range_map]
  · have hlen : (boxesT l).length = 0 := by
      simp [boxesT, Nat.le_zero.mp (Nat.not_lt.mp h0)]
    simp only [buildCore, if_neg h0]
    rw [if_neg (by omega)]

/-- The sliced box list never has more than `num_detections` entries. -/
theorem boxesT_length_le (l : Labels) : (boxesT l).length ≤ l.num_detections := by
  simp [boxesT]

/-- The dtype strings accepted by the dispatch at the top of the builder. -/
def validDtype (s : String) : Prop :=
  s = "float16" ∨ s = "bfloat16" ∨ s = "float32"

instance (s : String) : Decidable (validDtype s) := by
  unfold validDtype; infer_instance

/-- `build_heatmap_and_regressed_features` with the `raise Exception`
path modelled as `Except.error`: the dtype is validated first and no
output is produced on failure. -/
noncomputable def build (p : GTParams) (l : Labels) : Except String GTBundle :=
  if validDtype p.dtype then .ok (buildCore p l)
  else .error ("Unsupported datatype used in ground truth builder only "
    ++ "\x7bfloat16, bfloat16, or float32\x7d")

/-! ### Concrete fixtures (the box from the source's self-test block) -/

/-- The first box of the source's `__main__` self-test:
`(10, 300, 15, 370)` as `[ymin, xmin, ymax, xmax]`. -/
def fixtureBox : Box := ⟨10, 300, 15, 370⟩

/-- 512×512 input, 128×128 output, all keyword defaults
(`num_classes=90`, `max_num_instances=128`, `use_gaussian_bump=True`,
`gaussian_rad=-1`, `gaussian_iou=0.7`, `class_offset=0`,
`dtype='float32'`). -/
noncomputable def fixtureParams : GTParams :=
  { output_size := (128, 128), input_size := (512, 512), num_classes := 90,
    max_num_instances := 128, use_gaussian_bump := true, gaussian_rad := -1,
    gaussian_iou := 7 / 10, class_offset := 0, dtype := "float32" }

/-- A record holding just the fixture box with class 1. -/
def fixtureLabels : Labels := { bbox := [fixtureBox], classes := [1], num_detections := 1 }

theorem fix_scaleXct : scaleXct fixtureParams fixtureBox = 335 / 4 := by
  norm_num [scaleXct, xct, widthRatio, fixtureParams, fixtureBox]

theorem fix_scaleYct : scaleYct fixtureParams fixtureBox = 25 / 8 := by
  norm_num [scaleYct, yct, heightRatio, fixtureParams, fixtureBox]

theorem fix_xfloor : scaleXctFloor fixtureParams fixtureBox = 83 := by
  rw [scaleXctFloor, fix_scaleXct, Int.floor_eq_iff]
  norm_num

theorem fix_yfloor : scaleYctFloor fixtureParams fixtureBox = 3 := by
  rw [scaleYctFloor, fix_scaleYct, Int.floor_eq_iff]
  norm_num

theorem fix_getD : (boxesT fixtureLabels).getD 0 default = fixtureBox := by
  simp [boxesT, fixtureLabels]

/-! ### Claims -/

/-- C1: For every input record, the returned bundle satisfies
`box_mask[i] = 1` iff `i < count` (`num_detections`), and every row
`i ≥ count` of the offset, size and index tensors keeps its
zero-initialized default `(0, 0)`, so all writes are confined to rows
`[0, count)`. -/
theorem mask_iff_valid_and_tail_rows_zero (p : GTParams) (l : Labels) (i : ℕ) :
    ((buildCore p l).box_mask i = 1 ↔ i < l.num_detections) ∧
    (l.num_detections ≤ i →
      (buildCore p l).ct_offset i = (0, 0) ∧
      (buildCore p l).size i = (0, 0) ∧
      (buildCore p l).box_indices i = (0, 0)) := by
  refine ⟨?_, fun hi => ?_⟩
  · rw [buildCore_box_mask]
    by_cases h : i < l.num_detections
    · simp [h]
    · simp [h]
  · have hlen : ¬ i < (boxesT l).length := by
      have := boxesT_length_le l
      omega
    rw [buildCore_ct_offset, if_neg hlen, buildCore_size, if_neg hlen,
      buildCore_box_indices, if_neg hlen]
    exact ⟨rfl, rfl, rfl⟩

/-- Witness for C1 on the concrete fixture: row 5 is beyond the single
valid instance and is fully zero, while row 0 is masked valid. -/
theorem mask_iff_valid_and_tail_rows_zero_witness :
    (buildCore fixtureParams fixtureLabels).ct_offset 5 = (0, 0) ∧
    (buildCore fixtureParams fixtureLabels).size 5 = (0, 0) ∧
    (buildCore fixtureParams fixtureLabels).box_indices 5 = (0, 0) ∧
    (buildCore fixtureParams fixtureLabels).box_mask 0 = 1 :=
  ⟨((mask_iff_valid_and_tail_rows_zero fixtureParams fixtureLabels 5).2 (by decide)).1,
   ((mask_iff_valid_and_tail_rows_zero fixtureParams fixtureLabels 5).2 (by decide)).2.1,
   ((mask_iff_valid_and_tail_rows_zero fixtureParams fixtureLabels 5).2 (by decide)).2.2,
   (mask_iff_valid_and_tail_rows_zero fixtureParams fixtureLabels 0).1.mpr (by decide)⟩

/-- C2 counterexample: for the fixture box `(10, 300, 15, 370)` scaled
512×512 → 128×128, the code's scaled x-center is `335/4 = 83.75`, not
`16.75`, and the discrete index row is `(3, 83)`, not `(3, 16)`. -/
theorem fixture_claimed_index_false :
    (buildCore fixtureParams fixtureLabels).box_indices 0 ≠ (3, 16) ∧
    scaleXct fixtureParams fixtureBox ≠ 67 / 4 := by
  constructor
  · rw [buildCore_box_indices, if_pos (by simp [boxesT, fixtureLabels]), fix_getD,
      fix_xfloor, fix_yfloor]
    intro h
    exact absurd (congrArg Prod.snd h) (by norm_num)
  · rw [fix_scaleXct]
    norm_num

/-- C2 (amended): the fixture box `(10, 300, 15, 370)` scaled from a
512×512 input to a 128×128 output yields scaled center
`(xct, yct) = (83.75, 3.125)`, discrete index `(fy, fx) = (3, 83)` in
`box_indices`, offset `(0.125, 0.75)`, size `(1.25, 17.5)`, and mask
entry 1 for that instance. -/
theorem fixture_values :
    scaleXct fixtureParams fixtureBox = 335 / 4 ∧
    scaleYct fixtureParams fixtureBox = 25 / 8 ∧
    (buildCore fixtureParams fixtureLabels).box_indices 0 = (3, 83) ∧
    (buildCore fixtureParams fixtureLabels).ct_offset 0 = (1 / 8, 3 / 4) ∧
    (buildCore fixtureParams fixtureLabels).size 0 = (5 / 4, 35 / 2) ∧
    (buildCore fixtureParams fixtureLabels).box_mask 0 = 1 := by
  refine ⟨fix_scaleXct, fix_scaleYct, ?_, ?_, ?_, ?_⟩
  · rw [buildCore_box_indices, if_pos (by simp [boxesT, fixtureLabels]), fix_getD,
      fix_xfloor, fix_yfloor]
  · rw [buildCore_ct_offset, if_pos (by simp [boxesT, fixtureLabels]), fix_getD,
      ctOffsetValues, fix_xfloor, fix_yfloor, fix_scaleXct, fix_scaleYct]
    norm_num
  · rw [buildCore_size, if_pos (by simp [boxesT, fixtureLabels]), fix_getD]
    norm_num [boxHeightsWidths, heightRatio, widthRatio, fixtureParams, fixtureBox]
  · rw [buildCore_box_mask, if_pos (by simp [fixtureLabels])]

/-- C3: when `count = 0` the builder returns the all-zero bundle of the
declared shapes, and that output is independent of whatever sits in the
box/class slots at index ≥ count (they are never read). -/
theorem count_zero_bundle (p : GTParams) (l₁ l₂ : Labels)
    (h₁ : l₁.num_detections = 0) (h₂ : l₂.num_detections = 0) :
    buildCore p l₁ = buildCore p l₂ ∧
    (∀ i j c, (buildCore p l₁).ct_heatmaps i j c = 0) ∧
    (∀ i, (buildCore p l₁).ct_offset i = (0, 0)) ∧
    (∀ i, (buildCore p l₁).size i = (0, 0)) ∧
    (∀ i, (buildCore p l₁).box_mask i = 0) ∧
    (∀ i, (buildCore p l₁).box_indices i = (0, 0)) := by
  have e₁ : buildCore p l₁ =
      { ct_heatmaps := fun _ _ _ => 0, ct_offset := fun _ => (0, 0),
        size := fun _ => (0, 0), box_mask := fun _ => 0,
        box_indices := fun _ => (0, 0) } := by
    rw [buildCore, if_neg (by omega)]
  have e₂ : buildCore p l₂ =
      { ct_heatmaps := fun _ _ _ => 0, ct_offset := fun _ => (0, 0),
        size := fun _ => (0, 0), box_mask := fun _ => 0,
        box_indices := fun _ => (0, 0) } := by
    rw [buildCore, if_neg (by omega)]
  rw [e₁, e₂]
  exact ⟨rfl, fun _ _ _ => rfl, fun _ => rfl, fun _ => rfl, fun _ => rfl, fun _ => rfl⟩

/-- Witness for C3: a record with garbage in its (unused) box and class
slots produces the same bundle as the empty record, and its heatmap and
mask are zero. -/
theorem count_zero_bundle_witness :
    buildCore fixtureParams { bbox := [⟨1, 2, 3, 4⟩], classes := [7], num_detections := 0 } =
      buildCore fixtureParams { bbox := [], classes := [], num_detections := 0 } ∧
    (buildCore fixtureParams
      { bbox := [⟨1, 2, 3, 4⟩], classes := [7], num_detections := 0 }).ct_heatmaps 0 0 0 = 0 ∧
    (buildCore fixtureParams
      { bbox := [⟨1, 2, 3, 4⟩], classes := [7], num_detections := 0 }).box_mask 0 = 0 :=
  ⟨(count_zero_bundle fixtureParams _ _ rfl rfl).1,
   (count_zero_bundle fixtureParams
      { bbox := [⟨1, 2, 3, 4⟩], classes := [7], num_detections := 0 }
      { bbox := [], classes := [], num_detections := 0 } rfl rfl).2.1 0 0 0,
   (count_zero_bundle fixtureParams
      { bbox := [⟨1, 2, 3, 4⟩], classes := [7], num_detections := 0 }
      { bbox := [], classes := [], num_detections := 0 } rfl rfl).2.2.2.2.1 0⟩

/-- C4: the builder fails (raises, returning no output) exactly when the
requested dtype is not one of `float16`, `bfloat16`, `float32`; for any
of those three it returns the full bundle. -/
theorem dtype_dispatch (p : GTParams) (l : Labels) :
    (validDtype p.dtype → build p l = .ok (buildCore p l)) ∧
    (¬ validDtype p.dtype → ∃ e, build p l = .error e) := by
  constructor
  · intro h
    rw [build, if_pos h]
  · intro h
    rw [build, if_neg h]
    exact ⟨_, rfl⟩

/-- Witness for C4: `float32` is accepted; `float64` is rejected. -/
theorem dtype_dispatch_witness :
    build fixtureParams fixtureLabels = .ok (buildCore fixtureParams fixtureLabels) ∧
    ∃ e, build { fixtureParams with dtype := "float64" } fixtureLabels = .error e :=
  ⟨(dtype_dispatch fixtureParams fixtureLabels).1 (Or.inr (Or.inr rfl)),
   (dtype_dispatch { fixtureParams with dtype := "float64" } fixtureLabels).2
     (by simp [validDtype, fixtureParams])⟩

/-- Below `num_detections`, the sliced box list agrees with the raw one. -/
theorem boxesT_getD (l : Labels) (i : ℕ) (hi : i < l.num_detections) :
    (boxesT l).getD i default = l.bbox.getD i default := by
  unfold boxesT
  by_cases h : i < l.bbox.length
  · rw [List.getD_eq_getElem _ _ (by simp [boxesT]; omega), List.getD_eq_getElem _ _ h]
    simp [List.getElem_take]
  · rw [List.getD_eq_default _ _ (by simp; omega), List.getD_eq_default _ _ (by omega)]

/-- C10: for every valid instance `i < count`, the integer index row plus
the offset row reconstructs the exact scaled center
`(yct·rh, xct·rw)` componentwise, and each offset component lies in
`[0, 1)` (the fractional part left by flooring the scaled center). -/
theorem index_offset_reconstruction (p : GTParams) (l : Labels) (i : ℕ)
    (hi : i < l.num_detections) (hlen : l.num_detections ≤ l.bbox.length) :
    ((((buildCore p l).box_indices i).1 : ℚ) + ((buildCore p l).ct_offset i).1
        = yct (l.bbox.getD i default) * heightRatio p) ∧
    ((((buildCore p l).box_indices i).2 : ℚ) + ((buildCore p l).ct_offset i).2
        = xct (l.bbox.getD i default) * widthRatio p) ∧
    0 ≤ ((buildCore p l).ct_offset i).1 ∧ ((buildCore p l).ct_offset i).1 < 1 ∧
    0 ≤ ((buildCore p l).ct_offset i).2 ∧ ((buildCore p l).ct_offset i).2 < 1 := by
  have hlt : i < (boxesT l).length := by simp [boxesT]; omega
  rw [buildCore_box_indices, if_pos hlt, buildCore_ct_offset, if_pos hlt,
    boxesT_getD l i hi]
  have hy := Int.floor_le (scaleYct p (l.bbox.getD i default))
  have hy' := Int.lt_floor_add_one (scaleYct p (l.bbox.getD i default))
  have hx := Int.floor_le (scaleXct p (l.bbox.getD i default))
  have hx' := Int.lt_floor_add_one (scaleXct p (l.bbox.getD i default))
  simp only [ctOffsetValues, scaleYctFloor, scaleXctFloor]
  refine ⟨?_, ?_, by linarith, by linarith, by linarith, by linarith⟩
  · simp only [scaleYct]
    ring
  · simp only [scaleXct]
    ring

/-- Witness for C10 on the concrete fixture instance. -/
theorem index_offset_reconstruction_witness :
    0 ≤ ((buildCore fixtureParams fixtureLabels).ct_offset 0).1 ∧
    ((buildCore fixtureParams fixtureLabels).ct_offset 0).1 < 1 ∧
    (((buildCore fixtureParams fixtureLabels).box_indices 0).1 : ℚ) +
        ((buildCore fixtureParams fixtureLabels).ct_offset 0).1
      = yct (fixtureLabels.bbox.getD 0 default) * heightRatio fixtureParams :=
  ⟨(index_offset_reconstruction fixtureParams fixtureLabels 0 (by decide) (by decide)).2.2.1,
   (index_offset_reconstruction fixtureParams fixtureLabels 0 (by decide) (by decide)).2.2.2.1,
   (index_offset_reconstruction fixtureParams fixtureLabels 0 (by decide) (by decide)).1⟩

/-- In the disabled-splat branch the returned heatmap is the scatter map. -/
theorem buildCore_heatmaps_scatter (p : GTParams) (l : Labels)
    (hb : p.use_gaussian_bump = false) (h0 : 0 < l.num_detections) :
    (buildCore p l).ct_heatmaps = ctHeatmapScatter p l := by
  rw [buildCore, if_pos h0]
  simp [hb]

/-- In the Gaussian branch the returned heatmap is the composited map. -/
theorem buildCore_heatmaps_gauss (p : GTParams) (l : Labels)
    (hb : p.use_gaussian_bump = true) (h0 : 0 < l.num_detections) :
    (buildCore p l).ct_heatmaps = ctHeatmapGauss p l := by
  rw [buildCore, if_pos h0]
  simp [hb]

/-- The scatter-mode heatmap is the indicator of the scattered centers. -/
theorem ctHeatmapScatter_char (p : GTParams) (l : Labels) (i j c : ℕ) :
    ctHeatmapScatter p l i j c
      = if ∃ bc ∈ instList p l, ctScatterIndex p bc = ((i : ℤ), (j : ℤ), (c : ℤ))
        then 1 else 0 := by
  show scatter _ _ _ = _
  rw [scatter_const _ 1 _ (fun u hu => by
    simp only [scatterHmUpdates, List.mem_map] at hu
    obtain ⟨bc, _, rfl⟩ := hu
    rfl) _]
  have hiff : (((i : ℤ), (j : ℤ), (c : ℤ)) ∈ (scatterHmUpdates p l).map Prod.fst)
      ↔ ∃ bc ∈ instList p l, ctScatterIndex p bc = ((i : ℤ), (j : ℤ), (c : ℤ)) := by
    simp [scatterHmUpdates, eq_comm]
  by_cases hmem : ∃ bc ∈ instList p l,
      ctScatterIndex p bc = ((i : ℤ), (j : ℤ), (c : ℤ))
  · rw [if_pos (hiff.mpr hmem), if_pos hmem]
  · rw [if_neg (fun hc => hmem (hiff.mp hc)), if_neg hmem]

/-- C9: with `use_gaussian_bump` disabled and a positive count, the
heatmap is exactly the indicator of the scattered instance centers: value
1 at cell `(row, col, class)` of some instance (whichever instance wrote
last — all writes carry the same value 1), value 0 everywhere else, so it
contains only values in `{0, 1}`. -/
theorem scatter_mode_heatmap (p : GTParams) (l : Labels)
    (hb : p.use_gaussian_bump = false) (h0 : 0 < l.num_detections) (i j c : ℕ) :
    ((buildCore p l).ct_heatmaps i j c
        = if ∃ bc ∈ instList p l, ctScatterIndex p bc = ((i : ℤ), (j : ℤ), (c : ℤ))
          then 1 else 0) ∧
    ((buildCore p l).ct_heatmaps i j c = 0 ∨ (buildCore p l).ct_heatmaps i j c = 1) := by
  have hchar : (buildCore p l).ct_heatmaps i j c
      = if ∃ bc ∈ instList p l, ctScatterIndex p bc = ((i : ℤ), (j : ℤ), (c : ℤ))
        then 1 else 0 := by
    rw [buildCore_heatmaps_scatter p l hb h0, ctHeatmapScatter_char]
  refine ⟨hchar, ?_⟩
  rw [hchar]
  by_cases hmem : ∃ bc ∈ instList p l,
      ctScatterIndex p bc = ((i : ℤ), (j : ℤ), (c : ℤ))
  · right
    rw [if_pos hmem]
  · left
    rw [if_neg hmem]

/-- Fixture parameters with the Gaussian bump disabled. -/
noncomputable def scatterParams : GTParams :=
  { fixtureParams with use_gaussian_bump := false }

/-- Witness for C9: the fixture instance writes a 1 at its discretized
center cell `(3, 83, 1)` and cell `(0, 0, 0)` stays 0. -/
theorem scatter_mode_heatmap_witness :
    (buildCore scatterParams fixtureLabels).ct_heatmaps 3 83 1 = 1 ∧
    (buildCore scatterParams fixtureLabels).ct_heatmaps 0 0 0 = 0 := by
  have ey : scaleYctFloor scatterParams fixtureBox = 3 := fix_yfloor
  have ex : scaleXctFloor scatterParams fixtureBox = 83 := fix_xfloor
  have hmem : (fixtureBox, (1 : ℤ)) ∈ instList scatterParams fixtureLabels := by
    simp [instList, boxesT, classesT, fixtureLabels, scatterParams, fixtureParams]
  constructor
  · rw [(scatter_mode_heatmap scatterParams fixtureLabels rfl (by decide) 3 83 1).1,
      if_pos ⟨(fixtureBox, 1), hmem, by simp [ctScatterIndex, ey, ex]⟩]
  · rw [(scatter_mode_heatmap scatterParams fixtureLabels rfl (by decide) 0 0 0).1,
      if_neg ?_]
    rintro ⟨bc, hbc, hidx⟩
    have hbc' : bc = (fixtureBox, (1 : ℤ)) := by
      simpa [instList, boxesT, classesT, fixtureLabels, scatterParams,
        fixtureParams] using hbc
    rw [hbc'] at hidx
    rw [ctScatterIndex] at hidx
    rw [ey, ex] at hidx
    simp at hidx

/-! ### Maximum-fold machinery for the Gaussian compositing -/

theorem foldr_max_le (a b : ℝ) (xs : List ℝ) (ha : a ≤ b)
    (h : ∀ x ∈ xs, x ≤ b) : xs.foldr max a ≤ b := by
  induction xs with
  | nil => exact ha
  | cons y ys ih =>
    exact max_le (h y (by simp)) (ih fun x hx => h x (by simp [hx]))

theorem le_foldr_max_init (a : ℝ) (xs : List ℝ) : a ≤ xs.foldr max a := by
  induction xs with
  | nil => exact le_rfl
  | cons y ys ih => exact le_trans ih (le_max_right _ _)

theorem mem_le_foldr_max (a x : ℝ) (xs : List ℝ) (hx : x ∈ xs) :
    x ≤ xs.foldr max a := by
  induction xs with
  | nil => cases hx
  | cons y ys ih =>
    rcases List.mem_cons.mp hx with h | h
    · subst h
      exact le_max_left _ _
    · exact le_trans (ih h) (le_max_right _ _)

theorem foldr_max_mem (a : ℝ) (xs : List ℝ) :
    xs.foldr max a = a ∨ xs.foldr max a ∈ xs := by
  induction xs with
  | nil => exact Or.inl rfl
  | cons y ys ih =>
    rcases max_choice y (ys.foldr max a) with h | h
    · right
      rw [List.foldr_cons, h]
      simp
    · rw [List.foldr_cons, h]
      rcases ih with h' | h'
      · exact Or.inl h'
      · right
        simp [h']

theorem foldr_max_init_nonneg (a : ℝ) (xs : List ℝ) (ha : 0 ≤ a) :
    xs.foldr max a = max a (xs.foldr max 0) := by
  induction xs with
  | nil => simp [max_eq_left ha]
  | cons y ys ih =>
    simp only [List.foldr_cons, ih]
    rw [max_left_comm]

theorem reduceMax_nonneg (l : List ℝ) (h : ∀ x ∈ l, 0 ≤ x) : 0 ≤ reduceMax l := by
  cases l with
  | nil => exact le_rfl
  | cons x xs => exact le_trans (h x (by simp)) (le_foldr_max_init x xs)

theorem reduceMax_le (l : List ℝ) (b : ℝ) (hb : 0 ≤ b) (h : ∀ x ∈ l, x ≤ b) :
    reduceMax l ≤ b := by
  cases l with
  | nil => exact hb
  | cons x xs => exact foldr_max_le x b xs (h x (by simp)) (fun y hy => h y (by simp [hy]))

theorem mem_le_reduceMax (l : List ℝ) (x : ℝ) (hx : x ∈ l) : x ≤ reduceMax l := by
  cases l with
  | nil => cases hx
  | cons y ys =>
    rcases List.mem_cons.mp hx with h | h
    · subst h
      exact le_foldr_max_init x ys
    · exact mem_le_foldr_max y x ys h

theorem reduceMax_mem (l : List ℝ) (h : l ≠ []) : reduceMax l ∈ l := by
  cases l with
  | nil => exact absurd rfl h
  | cons y ys =>
    rcases foldr_max_mem y ys with h' | h'
    · show ys.foldr max y ∈ y :: ys
      rw [h']
      simp
    · show ys.foldr max y ∈ y :: ys
      simp [h']

theorem reduceMax_eq_foldr (l : List ℝ) (h : ∀ x ∈ l, 0 ≤ x) :
    reduceMax l = l.foldr max 0 := by
  cases l with
  | nil => rfl
  | cons x xs =>
    show xs.foldr max x = (x :: xs).foldr max 0
    rw [foldr_max_init_nonneg x xs (h x (by simp)), List.foldr_cons]

theorem reduceMax_perm (l₁ l₂ : List ℝ) (hp : List.Perm l₁ l₂)
    (h : ∀ x ∈ l₁, 0 ≤ x) : reduceMax l₁ = reduceMax l₂ := by
  rw [reduceMax_eq_foldr l₁ h,
    reduceMax_eq_foldr l₂ (fun x hx => h x (hp.mem_iff.mpr hx)), hp.foldr_op_eq]

/-! ### Gaussian contribution bounds -/

theorem drawGaussian_nonneg (cls row col : ℤ) (r : ℤ) (i j c : ℕ) :
    0 ≤ drawGaussian cls row col r i j c := by
  unfold drawGaussian
  split
  · exact (Real.exp_pos _).le
  · exact le_rfl

theorem drawGaussian_le_one (cls row col : ℤ) (r : ℤ) (i j c : ℕ) :
    drawGaussian cls row col r i j c ≤ 1 := by
  unfold drawGaussian
  split
  · rw [show (1 : ℝ) = Real.exp 0 from Real.exp_zero.symm]
    apply Real.exp_le_exp.mpr
    apply div_nonpos_of_nonpos_of_nonneg
    · simp only [neg_nonpos]
      positivity
    · positivity
  · norm_num

/-- The Gaussian contribution one instance makes to one heatmap cell. -/
noncomputable def instGaussian (p : GTParams) (bc : Box × ℤ) (i j c : ℕ) : ℝ :=
  drawGaussian bc.2 (scaleYctFloor p bc.1) (scaleXctFloor p bc.1)
    (instanceRadius p bc.1) i j c

theorem gaussianList_eq (p : GTParams) (l : Labels) (i j c : ℕ) :
    gaussianList p l i j c = (instList p l).map fun bc => instGaussian p bc i j c := rfl

theorem instGaussian_nonneg (p : GTParams) (bc : Box × ℤ) (i j c : ℕ) :
    0 ≤ instGaussian p bc i j c := drawGaussian_nonneg _ _ _ _ _ _ _

theorem gaussianList_nonneg (p : GTParams) (l : Labels) (i j c : ℕ) :
    ∀ x ∈ gaussianList p l i j c, 0 ≤ x := by
  intro x hx
  rw [gaussianList_eq] at hx
  obtain ⟨bc, _, rfl⟩ := List.mem_map.mp hx
  exact instGaussian_nonneg p bc i j c

/-- C5: every heatmap cell lies in `[0, 1]`; any cell into which no
instance contributes (no Gaussian window covers it, no scatter point hits
it) is exactly 0; and in the Gaussian path with a positive count the cell
value is the elementwise maximum of the per-instance contributions. -/
theorem heatmap_bounds_zero_max (p : GTParams) (l : Labels) (i j c : ℕ) :
    (0 ≤ (buildCore p l).ct_heatmaps i j c ∧ (buildCore p l).ct_heatmaps i j c ≤ 1) ∧
    ((∀ bc ∈ instList p l, instGaussian p bc i j c = 0 ∧
        ctScatterIndex p bc ≠ ((i : ℤ), (j : ℤ), (c : ℤ))) →
      (buildCore p l).ct_heatmaps i j c = 0) ∧
    (p.use_gaussian_bump = true → 0 < l.num_detections →
      (∀ bc ∈ instList p l,
        instGaussian p bc i j c ≤ (buildCore p l).ct_heatmaps i j c) ∧
      (instList p l ≠ [] →
        ∃ bc ∈ instList p l,
          (buildCore p l).ct_heatmaps i j c = instGaussian p bc i j c)) := by
  by_cases h0 : 0 < l.num_detections
  · cases hbump : p.use_gaussian_bump with
    | false =>
      have hchar : (buildCore p l).ct_heatmaps i j c
          = if ∃ bc ∈ instList p l, ctScatterIndex p bc = ((i : ℤ), (j : ℤ), (c : ℤ))
            then 1 else 0 := by
        rw [buildCore_heatmaps_scatter p l hbump h0, ctHeatmapScatter_char]
      refine ⟨?_, ?_, ?_⟩
      · rw [hchar]
        split
        · norm_num
        · norm_num
      · intro hnone
        rw [hchar, if_neg ?_]
        rintro ⟨bc, hbc, hidx⟩
        exact (hnone bc hbc).2 hidx
      · intro hbt
        exact (Bool.false_ne_true hbt).elim
    | true =>
      have hg : (buildCore p l).ct_heatmaps i j c = reduceMax (gaussianList p l i j c) := by
        rw [buildCore_heatmaps_gauss p l hbump h0]
        rfl
      refine ⟨?_, ?_, ?_⟩
      · rw [hg]
        exact ⟨reduceMax_nonneg _ (gaussianList_nonneg p l i j c),
          reduceMax_le _ 1 (by norm_num) (fun x hx => by
            rw [gaussianList_eq] at hx
            obtain ⟨bc, _, rfl⟩ := List.mem_map.mp hx
            exact drawGaussian_le_one _ _ _ _ _ _ _)⟩
      · intro hnone
        rw [hg]
        refine le_antisymm ?_ (reduceMax_nonneg _ (gaussianList_nonneg p l i j c))
        refine reduceMax_le _ 0 le_rfl (fun x hx => ?_)
        rw [gaussianList_eq] at hx
        obtain ⟨bc, hbc, rfl⟩ := List.mem_map.mp hx
        exact le_of_eq (hnone bc hbc).1
      · intro _ _
        constructor
        · intro bc hbc
          rw [hg]
          refine mem_le_reduceMax _ _ ?_
          rw [gaussianList_eq]
          exact List.mem_map_of_mem _ hbc
        · intro hne
          have hne' : gaussianList p l i j c ≠ [] := by
            rw [gaussianList_eq]
            simp [hne]
          have := reduceMax_mem _ hne'
          rw [gaussianList_eq] at this
          obtain ⟨bc, hbc, hv⟩ := List.mem_map.mp this
          exact ⟨bc, hbc, by rw [hg, gaussianList_eq, ← hv]⟩
  · have hz : (buildCore p l).ct_heatmaps = fun _ _ _ => 0 := by
      rw [buildCore, if_neg h0]
    rw [hz]
    refine ⟨by norm_num, fun _ => rfl, fun _ hc => absurd hc h0⟩

/-- Witness for C5: at the fixture, the cell `(0, 0, 0)` — which no
instance covers — evaluates to 0 and in particular satisfies the bounds.
The no-contribution hypothesis is discharged on the empty-record input. -/
theorem heatmap_bounds_zero_max_witness :
    (0 ≤ (buildCore fixtureParams
        { bbox := [], classes := [], num_detections := 0 }).ct_heatmaps 0 0 0 ∧
      (buildCore fixtureParams
        { bbox := [], classes := [], num_detections := 0 }).ct_heatmaps 0 0 0 ≤ 1) ∧
    (buildCore fixtureParams
        { bbox := [], classes := [], num_detections := 0 }).ct_heatmaps 0 0 0 = 0 :=
  ⟨(heatmap_bounds_zero_max fixtureParams
      { bbox := [], classes := [], num_detections := 0 } 0 0 0).1,
   (heatmap_bounds_zero_max fixtureParams
      { bbox := [], classes := [], num_detections := 0 } 0 0 0).2.1
     (fun bc hbc => absurd hbc (by simp [instList, boxesT, classesT]))⟩

/-- C6: permuting the valid instances (boxes and classes together) leaves
the rendered heatmap identical in either mode; and every populated row of
the per-instance arrays is determined by the instance occupying it, so a
permutation only relabels which instance occupies which row. -/
theorem heatmap_perm_invariant (p : GTParams) (l₁ l₂ : Labels)
    (hn : l₁.num_detections = l₂.num_detections)
    (hperm : List.Perm (instList p l₁) (instList p l₂)) :
    (buildCore p l₁).ct_heatmaps = (buildCore p l₂).ct_heatmaps ∧
    (∀ i < (boxesT l₂).length,
      (buildCore p l₂).ct_offset i = ctOffsetValues p ((boxesT l₂).getD i default) ∧
      (buildCore p l₂).size i = boxHeightsWidths p ((boxesT l₂).getD i default) ∧
      (buildCore p l₂).box_indices i
        = (scaleYctFloor p ((boxesT l₂).getD i default),
           scaleXctFloor p ((boxesT l₂).getD i default)) ∧
      (buildCore p l₂).box_mask i = 1) := by
  constructor
  · by_cases h0 : 0 < l₁.num_detections
    · have h0' : 0 < l₂.num_detections := hn ▸ h0
      cases hbump : p.use_gaussian_bump with
      | false =>
        rw [buildCore_heatmaps_scatter p l₁ hbump h0,
          buildCore_heatmaps_scatter p l₂ hbump h0']
        funext i j c
        rw [ctHeatmapScatter_char, ctHeatmapScatter_char]
        by_cases hmem : ∃ bc ∈ instList p l₁,
            ctScatterIndex p bc = ((i : ℤ), (j : ℤ), (c : ℤ))
        · obtain ⟨bc, hbc, hv⟩ := hmem
          rw [if_pos ⟨bc, hbc, hv⟩, if_pos ⟨bc, hperm.mem_iff.mp hbc, hv⟩]
        · rw [if_neg hmem, if_neg ?_]
          rintro ⟨bc, hbc, hv⟩
          exact hmem ⟨bc, hperm.mem_iff.mpr hbc, hv⟩
      | true =>
        rw [buildCore_heatmaps_gauss p l₁ hbump h0,
          buildCore_heatmaps_gauss p l₂ hbump h0']
        funext i j c
        show reduceMax (gaussianList p l₁ i j c) = reduceMax (gaussianList p l₂ i j c)
        refine reduceMax_perm _ _ ?_ (gaussianList_nonneg p l₁ i j c)
        rw [gaussianList_eq, gaussianList_eq]
        exact hperm.map _
    · have h0' : ¬ 0 < l₂.num_detections := by omega
      rw [buildCore, if_neg h0, buildCore, if_neg h0']
  · intro i hi
    have hmask : i < l₂.num_detections := by
      have := boxesT_length_le l₂
      omega
    rw [buildCore_ct_offset, if_pos hi, buildCore_size, if_pos hi,
      buildCore_box_indices, if_pos hi, buildCore_box_mask, if_pos hmask]
    exact ⟨rfl, rfl, rfl, rfl⟩

/-- The second box of the source's `__main__` self-test. -/
def permBoxB : Box := ⟨100, 300, 150, 370⟩

/-- Two instances in input order. -/
def permLabelsA : Labels :=
  { bbox := [fixtureBox, permBoxB], classes := [1, 2], num_detections := 2 }

/-- The same two instances, swapped (boxes and classes permuted together). -/
def permLabelsB : Labels :=
  { bbox := [permBoxB, fixtureBox], classes := [2, 1], num_detections := 2 }

/-- Witness for C6: swapping the two fixture instances leaves the
heatmap identical and row 0 of the swapped record is populated from the
instance now occupying it. -/
theorem heatmap_perm_invariant_witness :
    (buildCore fixtureParams permLabelsA).ct_heatmaps
      = (buildCore fixtureParams permLabelsB).ct_heatmaps ∧
    (buildCore fixtureParams permLabelsB).box_mask 0 = 1 :=
  ⟨(heatmap_perm_invariant fixtureParams permLabelsA permLabelsB rfl
      (by
        show List.Perm ((fixtureBox, (1 : ℤ)) :: (permBoxB, (2 : ℤ)) :: [])
          ((permBoxB, (2 : ℤ)) :: (fixtureBox, (1 : ℤ)) :: [])
        exact List.Perm.swap _ _ _)).1,
   ((heatmap_perm_invariant fixtureParams permLabelsA permLabelsB rfl
      (by
        show List.Perm ((fixtureBox, (1 : ℤ)) :: (permBoxB, (2 : ℤ)) :: [])
          ((permBoxB, (2 : ℤ)) :: (fixtureBox, (1 : ℤ)) :: [])
        exact List.Perm.swap _ _ _)).2 0 (by decide)).2.2.2⟩

/-- Fixture parameters requesting the fixed radius 0. -/
noncomputable def radZeroParams : GTParams := { fixtureParams with gaussian_rad := 0 }

/-- C7 counterexample: with the non-sentinel fixed radius 0 the builder
uses 0 as the kernel radius for every instance — the radius is not a
positive integer and the hard floor of 1 is not applied in that path. -/
theorem fixed_radius_not_clamped :
    instanceRadius radZeroParams fixtureBox = 0 ∧
    ¬ 1 ≤ instanceRadius radZeroParams fixtureBox := by
  have h : instanceRadius radZeroParams fixtureBox = 0 := by
    rw [instanceRadius, if_neg (by decide)]
    rfl
  exact ⟨h, by rw [h]; norm_num⟩

/-- C7 (amended): with the sentinel override `-1` the per-instance radius
is computed analytically from the ceil-rounded scaled height/width and
`gaussian_iou`, floored and clamped to `≥ 1` (hence a positive integer);
with any non-sentinel override the analytic computation is skipped and
that constant is used verbatim as the radius for every instance (it is
positive only if the supplied constant is). -/
theorem radius_selection (p : GTParams) (b : Box) :
    (p.gaussian_rad = -1 →
      instanceRadius p b
        = max ⌊gaussian_radius ((⌈(boxHeightsWidths p b).1⌉ : ℤ) : ℝ)
            ((⌈(boxHeightsWidths p b).2⌉ : ℤ) : ℝ) p.gaussian_iou⌋ 1 ∧
      1 ≤ instanceRadius p b) ∧
    (p.gaussian_rad ≠ -1 → instanceRadius p b = p.gaussian_rad) := by
  constructor
  · intro h
    rw [instanceRadius, if_pos h]
    exact ⟨rfl, le_max_right _ _⟩
  · intro h
    rw [instanceRadius, if_neg h]

/-- Witness for C7: the analytic path yields a radius `≥ 1` on the
fixture box; the fixed radius 2 is used verbatim. -/
theorem radius_selection_witness :
    1 ≤ instanceRadius fixtureParams fixtureBox ∧
    instanceRadius { fixtureParams with gaussian_rad := 2 } fixtureBox = 2 :=
  ⟨((radius_selection fixtureParams fixtureBox).1 rfl).2,
   (radius_selection { fixtureParams with gaussian_rad := 2 } fixtureBox).2 (by decide)⟩

/-! ### Monotonicity of the analytic radius -/

theorem discA_lower (k h w : ℝ) (hk1 : k ≤ 1) (hh : 0 ≤ h) (hw : 0 ≤ w) :
    (h - w) ^ 2 ≤ (h + w) ^ 2 - 4 * k * w * h := by
  nlinarith [mul_nonneg (mul_nonneg (sub_nonneg.mpr hk1) hw) hh]

/-- The square root appearing in radius cases 1 and 2 cannot drop by more
than the height increase. -/
theorem sqrt_quad_mono (k w h h' : ℝ) (hk1 : k ≤ 1)
    (hw : 0 ≤ w) (hh : 0 ≤ h) (hhh : h ≤ h') :
    Real.sqrt ((h + w) ^ 2 - 4 * k * w * h)
      ≤ (h' - h) + Real.sqrt ((h' + w) ^ 2 - 4 * k * w * h') := by
  have hh' : 0 ≤ h' := le_trans hh hhh
  have hBl : (h' - w) ^ 2 ≤ (h' + w) ^ 2 - 4 * k * w * h' := discA_lower k h' w hk1 hh' hw
  have hB0 : 0 ≤ (h' + w) ^ 2 - 4 * k * w * h' := le_trans (sq_nonneg _) hBl
  have hsB_lb : w - h' ≤ Real.sqrt ((h' + w) ^ 2 - 4 * k * w * h') := by
    have h1 : |h' - w| ≤ Real.sqrt ((h' + w) ^ 2 - 4 * k * w * h') := by
      rw [← Real.sqrt_sq_eq_abs]
      exact Real.sqrt_le_sqrt hBl
    have h2 : w - h' ≤ |h' - w| := by
      rw [abs_sub_comm]
      exact le_abs_self _
    linarith
  have hsB0 : 0 ≤ Real.sqrt ((h' + w) ^ 2 - 4 * k * w * h') := Real.sqrt_nonneg _
  have hrhs0 : 0 ≤ (h' - h) + Real.sqrt ((h' + w) ^ 2 - 4 * k * w * h') := by linarith
  rw [Real.sqrt_le_left hrhs0]
  have key : 4 * k * w - h - h' - 2 * w
      ≤ (h' - h) + 2 * Real.sqrt ((h' + w) ^ 2 - 4 * k * w * h') := by
    have h4kw : 4 * k * w ≤ 4 * w := by nlinarith
    linarith
  nlinarith [mul_le_mul_of_nonneg_left key (sub_nonneg.mpr hhh),
    Real.sq_sqrt hB0, hsB0]

/-- The square root appearing in radius case 3 grows at least as fast as
`τ` times the height increase. -/
theorem sqrt_quad3_mono (τ w h h' : ℝ) (hτ0 : 0 < τ) (hτ1 : τ ≤ 1)
    (hw : 0 ≤ w) (hh : 0 ≤ h) (hhh : h ≤ h') :
    Real.sqrt ((τ * (h + w)) ^ 2 + 4 * τ * (1 - τ) * w * h) + τ * (h' - h)
      ≤ Real.sqrt ((τ * (h' + w)) ^ 2 + 4 * τ * (1 - τ) * w * h') := by
  have hh' : 0 ≤ h' := le_trans hh hhh
  have hwh : 0 ≤ 4 * τ * (1 - τ) * w * h :=
    mul_nonneg (mul_nonneg (mul_nonneg (by linarith) (by linarith)) hw) hh
  have hwh' : 0 ≤ 4 * τ * (1 - τ) * w * h' :=
    mul_nonneg (mul_nonneg (mul_nonneg (by linarith) (by linarith)) hw) hh'
  have hC0 : 0 ≤ (τ * (h + w)) ^ 2 + 4 * τ * (1 - τ) * w * h :=
    add_nonneg (sq_nonneg _) hwh
  have hC0' : 0 ≤ (τ * (h' + w)) ^ 2 + 4 * τ * (1 - τ) * w * h' :=
    add_nonneg (sq_nonneg _) hwh'
  have hsC0 : 0 ≤ Real.sqrt ((τ * (h + w)) ^ 2 + 4 * τ * (1 - τ) * w * h) :=
    Real.sqrt_nonneg _
  have hd : 0 ≤ h' - h := sub_nonneg.mpr hhh
  have hτd : 0 ≤ τ * (h' - h) := mul_nonneg hτ0.le hd
  have hsC_ub : Real.sqrt ((τ * (h + w)) ^ 2 + 4 * τ * (1 - τ) * w * h)
      ≤ τ * (h + w) + 2 * (1 - τ) * w := by
    have hub0 : 0 ≤ τ * (h + w) + 2 * (1 - τ) * w := by nlinarith
    rw [Real.sqrt_le_left hub0]
    nlinarith [mul_nonneg (mul_nonneg (sub_nonneg.mpr hτ1) hw) hw]
  rw [Real.le_sqrt (by linarith) hC0']
  nlinarith [mul_le_mul_of_nonneg_left hsC_ub (by linarith : (0:ℝ) ≤ 2 * (τ * (h' - h))),
    Real.sq_sqrt hC0, hsC0]

theorem sqrt_four : Real.sqrt 4 = 2 := by
  rw [show (4 : ℝ) = 2 ^ 2 by norm_num, Real.sqrt_sq (by norm_num : (0:ℝ) ≤ 2)]

theorem radCase1_eq (h w τ : ℝ) :
    radCase1 h w τ
      = (h + w + Real.sqrt ((h + w) ^ 2 - 4 * ((1 - τ) / (1 + τ)) * w * h)) / 2 := by
  unfold radCase1 quadRoot
  rw [show (-(h + w)) ^ 2 - 4 * 1 * (w * h * (1 - τ) / (1 + τ))
      = (h + w) ^ 2 - 4 * ((1 - τ) / (1 + τ)) * w * h by ring]
  ring

theorem radCase2_eq (h w τ : ℝ) :
    radCase2 h w τ
      = (h + w + Real.sqrt ((h + w) ^ 2 - 4 * (1 - τ) * w * h)) / 4 := by
  unfold radCase2 quadRoot
  rw [show (-2 * (h + w)) ^ 2 - 4 * 4 * ((1 - τ) * w * h)
      = 4 * ((h + w) ^ 2 - 4 * (1 - τ) * w * h) by ring,
    Real.sqrt_mul (by norm_num : (0:ℝ) ≤ 4), sqrt_four]
  ring

theorem radCase3_eq (h w τ : ℝ) (hτ0 : 0 < τ) :
    radCase3 h w τ
      = (-(τ * (h + w)) + Real.sqrt ((τ * (h + w)) ^ 2 + 4 * τ * (1 - τ) * w * h))
          / (4 * τ) := by
  unfold radCase3 quadRoot
  rw [show (2 * τ * (h + w)) ^ 2 - 4 * (4 * τ) * ((τ - 1) * w * h)
      = 4 * ((τ * (h + w)) ^ 2 + 4 * τ * (1 - τ) * w * h) by ring,
    Real.sqrt_mul (by norm_num : (0:ℝ) ≤ 4), sqrt_four]
  field_simp
  ring

theorem radCase1_mono_h (τ h h' w : ℝ) (hτ0 : 0 < τ) (hτ1 : τ < 1)
    (hh : 0 ≤ h) (hw : 0 ≤ w) (hhh : h ≤ h') :
    radCase1 h w τ ≤ radCase1 h' w τ := by
  rw [radCase1_eq, radCase1_eq]
  have hk1 : (1 - τ) / (1 + τ) ≤ 1 := by
    rw [div_le_one (by linarith)]
    linarith
  have := sqrt_quad_mono ((1 - τ) / (1 + τ)) w h h' hk1 hw hh hhh
  linarith

theorem radCase2_mono_h (τ h h' w : ℝ) (hτ0 : 0 < τ) (hτ1 : τ < 1)
    (hh : 0 ≤ h) (hw : 0 ≤ w) (hhh : h ≤ h') :
    radCase2 h w τ ≤ radCase2 h' w τ := by
  rw [radCase2_eq, radCase2_eq]
  have := sqrt_quad_mono (1 - τ) w h h' (by linarith) hw hh hhh
  linarith

theorem radCase3_mono_h (τ h h' w : ℝ) (hτ0 : 0 < τ) (hτ1 : τ < 1)
    (hh : 0 ≤ h) (hw : 0 ≤ w) (hhh : h ≤ h') :
    radCase3 h w τ ≤ radCase3 h' w τ := by
  rw [radCase3_eq h w τ hτ0, radCase3_eq h' w τ hτ0]
  have := sqrt_quad3_mono τ w h h' hτ0 hτ1.le hw hh hhh
  have h4τ : 0 < 4 * τ := by linarith
  rw [div_le_div_iff_of_pos_right h4τ]
  linarith

theorem radCase1_comm (h w τ : ℝ) : radCase1 h w τ = radCase1 w h τ := by
  unfold radCase1
  rw [show -(h + w) = -(w + h) by ring,
    show w * h * (1 - τ) / (1 + τ) = h * w * (1 - τ) / (1 + τ) by ring]

theorem radCase2_comm (h w τ : ℝ) : radCase2 h w τ = radCase2 w h τ := by
  unfold radCase2
  rw [show -2 * (h + w) = -2 * (w + h) by ring,
    show (1 - τ) * w * h = (1 - τ) * h * w by ring]

theorem radCase3_comm (h w τ : ℝ) : radCase3 h w τ = radCase3 w h τ := by
  unfold radCase3
  rw [show 2 * τ * (h + w) = 2 * τ * (w + h) by ring,
    show (τ - 1) * w * h = (τ - 1) * h * w by ring]

theorem gaussian_radius_comm (h w τ : ℝ) :
    gaussian_radius h w τ = gaussian_radius w h τ := by
  unfold gaussian_radius
  rw [radCase1_comm, radCase2_comm, radCase3_comm]

/-- C8: for every fixed IoU threshold `τ ∈ (0, 1)`, the analytic kernel
radius is monotone: increasing the (ceil-rounded, scaled) box height with
width fixed, or the width with height fixed, never decreases the computed
radius — neither before nor after the floor-and-clamp applied by the
builder. -/
theorem radius_monotone (τ h h' w w' : ℝ) (hτ0 : 0 < τ) (hτ1 : τ < 1)
    (hh : 0 ≤ h) (hw : 0 ≤ w) :
    (h ≤ h' → gaussian_radius h w τ ≤ gaussian_radius h' w τ ∧
      max ⌊gaussian_radius h w τ⌋ 1 ≤ max ⌊gaussian_radius h' w τ⌋ 1) ∧
    (w ≤ w' → gaussian_radius h w τ ≤ gaussian_radius h w' τ ∧
      max ⌊gaussian_radius h w τ⌋ 1 ≤ max ⌊gaussian_radius h w' τ⌋ 1) := by
  constructor
  · intro hhh
    have hmono : gaussian_radius h w τ ≤ gaussian_radius h' w τ := by
      unfold gaussian_radius
      exact min_le_min (radCase1_mono_h τ h h' w hτ0 hτ1 hh hw hhh)
        (min_le_min (radCase2_mono_h τ h h' w hτ0 hτ1 hh hw hhh)
          (radCase3_mono_h τ h h' w hτ0 hτ1 hh hw hhh))
    exact ⟨hmono, max_le_max (Int.floor_mono hmono) le_rfl⟩
  · intro hww
    have hmono : gaussian_radius h w τ ≤ gaussian_radius h w' τ := by
      rw [gaussian_radius_comm h w τ, gaussian_radius_comm h w' τ]
      unfold gaussian_radius
      exact min_le_min (radCase1_mono_h τ w w' h hτ0 hτ1 hw hh hww)
        (min_le_min (radCase2_mono_h τ w w' h hτ0 hτ1 hw hh hww)
          (radCase3_mono_h τ w w' h hτ0 hτ1 hw hh hww))
    exact ⟨hmono, max_le_max (Int.floor_mono hmono) le_rfl⟩

/-- Witness for C8 at `τ = 1/2`, growing the height from 1 to 2 and the
width from 1 to 3. -/
theorem radius_monotone_witness :
    gaussian_radius 1 1 (1 / 2) ≤ gaussian_radius 2 1 (1 / 2) ∧
    gaussian_radius 1 1 (1 / 2) ≤ gaussian_radius 1 3 (1 / 2) :=
  ⟨((radius_monotone (1 / 2) 1 2 1 3 (by norm_num) (by norm_num) (by norm_num)
      (by norm_num)).1 (by norm_num)).1,
   ((radius_monotone (1 / 2) 1 2 1 3 (by norm_num) (by norm_num) (by norm_num)
      (by norm_num)).2 (by norm_num)).1⟩

end GtBuilder
